import Mathlib

/-!
Shallow embedding of the cryocontrol ITC503 temperature-controller driver
(`cryocontrol/instruments/itc503.py` and `cryocontrol/instruments/base.py`).

Modelling conventions:
* Python floats are modelled as rationals (`ℚ`); every numeric value the
  claims touch is an exact short decimal, where rational and IEEE-double
  arithmetic agree after the 2-decimal rounding the driver applies.
* Python exceptions are the `PyError` inductive; the spec's taxonomy maps
  onto the exception classes actually raised by the source
  (`InvalidArgument` = `ValueError`, `ConnectionFailure` = `ConnectionError`,
  `ProtocolError` = the `IOError` of `_read_channel`).
* The transport is a parameter: a query's device response is passed in as a
  `String` (or `Option String` where transport failure matters), and each
  operation reports the wire traffic it produced so that "zero wire calls"
  style claims are statable.
* The sequential semantics of each method body is modelled directly; the
  reentrant lock makes each wire round trip atomic, and thread-interleaving
  points that matter (the three flag reads per ramp-loop iteration) are
  modelled as per-iteration observed values.
-/

namespace Cryocontrol

/-- Python exception kinds raised by the driver sources. -/
inductive PyError where
  | valueError
  | connectionError
  | attributeError
  | ioError
  | runtimeError
  deriving Repr, DecidableEq

/-- Embeds `sign` from itc503.py: `(1, -1)[x < 0]`, i.e. -1 for negative
arguments and 1 otherwise (including 0). -/
def sign (x : ℚ) : ℚ := if x < 0 then -1 else 1

/-- Python's built-in `round(x, ndigits)`: round-half-to-even at the given
number of decimal digits. With `x := q * 10^ndigits`, `f := ⌊x⌋` and
`r := x - f ∈ [0, 1)`, the rounded integer is `f` when `r < 1/2`, `f + 1`
when `r > 1/2`, and the even neighbour on a tie. Writing `x` as
`x.num / x.den` with `x.den > 0`, the floor is the Euclidean quotient, the
fractional part is `(x.num.emod x.den) / x.den`, and `r ≶ 1/2` is exactly
`2 * (x.num.emod x.den) ≶ x.den`, so the whole computation stays in `ℤ`. -/
def pyRound (ndigits : ℕ) (q : ℚ) : ℚ :=
  let x : ℚ := q * ((10 ^ ndigits : ℕ) : ℚ)
  let f : ℤ := x.num.ediv (x.den : ℤ)
  let r : ℤ := x.num.emod (x.den : ℤ)
  let n : ℤ :=
    if 2 * r < (x.den : ℤ) then f
    else if (x.den : ℤ) < 2 * r then f + 1
    else if f % 2 = 0 then f else f + 1
  (n : ℚ) / ((10 ^ ndigits : ℕ) : ℚ)

/-- `round(x, 2)` as used for temperature setpoints. -/
def pyRound2 : ℚ → ℚ := pyRound 2

/-- `round(x, 1)` as used for heater / gasflow percent setpoints. -/
def pyRound1 : ℚ → ℚ := pyRound 1

/-- The parsed status word: the named groups of `_status_pattern`,
`(X\d)(A\d)(C\d)(S\d{1,2})(H\d)(L\d)`, each kept as its matched text. -/
structure StatusWord where
  system : String
  auto : String
  lck : String
  sweep : String
  control_sensor : String
  auto_pid : String
  deriving Repr, DecidableEq

/-- Matches one status field: the literal tag character followed by exactly
one digit; returns the matched two-character group and the rest. -/
def parseTag (tag : Char) (cs : List Char) : Option (String × List Char) :=
  match cs with
  | c :: d :: rest =>
      if c = tag ∧ d.isDigit then some (String.mk [c, d], rest) else none
  | _ => none

/-- Matches the fixed tail `H\dL\d` against exactly the remaining input
(`re.fullmatch` permits no remainder). -/
def parseTail (cs : List Char) : Option (String × String) :=
  match cs with
  | [h, d1, l, d2] =>
      if h = 'H' ∧ d1.isDigit ∧ l = 'L' ∧ d2.isDigit then
        some (String.mk [h, d1], String.mk [l, d2])
      else none
  | _ => none

/-- Embeds `re.fullmatch(_status_pattern, status)`: anchored match of
`(X\d)(A\d)(C\d)(S\d{1,2})(H\d)(L\d)` over the whole response, with the
regex engine's greedy-then-backtrack behaviour on the 1-or-2 digit sweep
field. Returns `none` exactly when `fullmatch` returns `None`. -/
def parseStatus (s : String) : Option StatusWord :=
  match parseTag 'X' s.data with
  | none => none
  | some (gx, r1) =>
    match parseTag 'A' r1 with
    | none => none
    | some (ga, r2) =>
      match parseTag 'C' r2 with
      | none => none
      | some (gc, r3) =>
        match r3 with
        | sv :: d1 :: rest =>
          if sv = 'S' ∧ d1.isDigit then
            match rest with
            | d2 :: rest2 =>
              if d2.isDigit then
                match parseTail rest2 with
                | some (gh, gl) =>
                    some ⟨gx, ga, gc, String.mk [sv, d1, d2], gh, gl⟩
                | none =>
                  match parseTail (d2 :: rest2) with
                  | some (gh, gl) =>
                      some ⟨gx, ga, gc, String.mk [sv, d1], gh, gl⟩
                  | none => none
              else
                match parseTail (d2 :: rest2) with
                | some (gh, gl) =>
                    some ⟨gx, ga, gc, String.mk [sv, d1], gh, gl⟩
                | none => none
            | [] => none
          else none
        | _ => none

/-- The driver's status cache: `_last_status` (a `time.time()` timestamp,
initially 0) and `_cached_status` (initially `None`). -/
structure CacheState where
  last_status : ℚ
  cached_status : Option StatusWord
  deriving Repr, DecidableEq

/-- Embeds `ITC503._get_status`. `now` is the value of `time.time()`, `resp`
the device's response to the `'X'` query should one be issued. Returns the
result (the status dict, or the exception escaping the method), the cache
state after the call, and whether a wire query was issued.

Faithful to the source: when the cache is stale (older than 1 second) or
absent, the driver queries `'X'` and evaluates `match.groupdict()`; when the
response does not match the pattern, `re.fullmatch` returns `None` and
`None.groupdict()` raises `AttributeError` before either assignment runs, so
the cache and timestamp are left untouched. -/
def get_status (now : ℚ) (resp : String) (s : CacheState) :
    Except PyError StatusWord × CacheState × Bool :=
  if now - s.last_status > 1 ∨ s.cached_status = none then
    match parseStatus resp with
    | some w => (Except.ok w, ⟨now, some w⟩, true)
    | none => (Except.error PyError.attributeError, s, true)
  else
    match s.cached_status with
    | some w => (Except.ok w, s, false)
    | none => (Except.error PyError.attributeError, s, false)

/-- Embeds the `heater_auto` getter: reads the (possibly cached) status and
returns whether `status['auto']` is `'A1'` or `'A3'`. -/
def heater_auto_get (now : ℚ) (resp : String) (s : CacheState) :
    Except PyError Bool × CacheState × Bool :=
  match get_status now resp s with
  | (Except.ok w, s', q) =>
      (Except.ok (decide (w.auto = "A1" ∨ w.auto = "A3")), s', q)
  | (Except.error e, s', q) => (Except.error e, s', q)

/-- Embeds the `gasflow_auto` getter: reads the (possibly cached) status and
returns whether `status['auto']` is `'A2'` or `'A3'`. -/
def gasflow_auto_get (now : ℚ) (resp : String) (s : CacheState) :
    Except PyError Bool × CacheState × Bool :=
  match get_status now resp s with
  | (Except.ok w, s', q) =>
      (Except.ok (decide (w.auto = "A2" ∨ w.auto = "A3")), s', q)
  | (Except.error e, s', q) => (Except.error e, s', q)

/-- Embeds the `heater_auto` setter: reads the (possibly cached) status; if
`status['auto'] in ('A0', 'A1')` (gas manual) it sends `A1`/`A0` for
true/false, otherwise (gas auto) `A3`/`A2`. Returns the cache state after the
embedded status read and the `A` command written. The `A` write itself never
touches the cache (the source writes via `self.query`). -/
def heater_auto_set (value : Bool) (now : ℚ) (resp : String) (s : CacheState) :
    Except PyError (CacheState × String) :=
  match get_status now resp s with
  | (Except.ok w, s', _) =>
      if w.auto = "A0" ∨ w.auto = "A1" then
        Except.ok (s', if value then "A1" else "A0")
      else
        Except.ok (s', if value then "A3" else "A2")
  | (Except.error e, _, _) => Except.error e

/-- Embeds the `gasflow_auto` setter: reads the (possibly cached) status; if
`status['auto'] in ('A0', 'A2')` (heater manual) it sends `A2`/`A0` for
true/false, otherwise (heater auto) `A3`/`A1`. -/
def gasflow_auto_set (value : Bool) (now : ℚ) (resp : String) (s : CacheState) :
    Except PyError (CacheState × String) :=
  match get_status now resp s with
  | (Except.ok w, s', _) =>
      if w.auto = "A0" ∨ w.auto = "A2" then
        Except.ok (s', if value then "A2" else "A0")
      else
        Except.ok (s', if value then "A3" else "A1")
  | (Except.error e, _, _) => Except.error e

/-- The sequence of claim C1: `heater_auto = True` at time `t0` (device
status response `resp0`) immediately followed by `gasflow_auto = False` at
time `t1` (device status response `resp1`, only consulted if the cache has
gone stale). Returns the two `A` commands written, in order, and the final
cache state. The device's resulting auto-mode code is the second command,
the last one written. -/
def heater_then_gas (t0 t1 : ℚ) (resp0 resp1 : String) (s : CacheState) :
    Except PyError (String × String × CacheState) :=
  match heater_auto_set true t0 resp0 s with
  | Except.error e => Except.error e
  | Except.ok (s1, cmd1) =>
    match gasflow_auto_set false t1 resp1 s1 with
    | Except.error e => Except.error e
    | Except.ok (s2, cmd2) => Except.ok (cmd1, cmd2, s2)

/-- Numeric value of a digit string, as Python's int-of-digits. -/
def digits_val (cs : List Char) : ℕ :=
  cs.foldl (fun a c => 10 * a + (c.toNat - 48)) 0

/-- Embeds Python's `float(s)` on a string containing only digits and dots
(the only characters `_read_channel`'s filter lets through): accepts
`digits`, `digits.`, `.digits`, `digits.digits`; raises `ValueError`
(returns `none`) on an empty string, a lone dot, or more than one dot. -/
def parse_float (cs : List Char) : Option ℚ :=
  match cs.span (fun c => c ≠ '.') with
  | (ip, []) =>
      if ip ≠ [] ∧ ip.all Char.isDigit then some (digits_val ip : ℚ) else none
  | (ip, _ :: fp) =>
      if (ip ≠ [] ∨ fp ≠ []) ∧ ip.all Char.isDigit ∧ fp.all Char.isDigit then
        some ((digits_val ip : ℚ) + (digits_val fp : ℚ) / (10 : ℚ) ^ fp.length)
      else none

/-- Embeds `ITC503._read_channel(number)`: sends `'R{:.0f}'.format(number)`,
raises `IOError` when the response starts with `'?'`, otherwise strips all
characters outside `0123456789.` and parses the remainder as a float.
Returns the command sent and the outcome. -/
def read_channel (n : ℕ) (resp : String) : String × Except PyError ℚ :=
  ("R" ++ toString n,
    if resp.data.head? = some '?' then Except.error PyError.ioError
    else
      match parse_float (resp.data.filter (fun c => c.isDigit ∨ c = '.')) with
      | some q => Except.ok q
      | none => Except.error PyError.valueError)

/-- Embeds the `temperature` getter: `_read_channel(1)`. -/
def temperature_get (resp : String) : String × Except PyError ℚ :=
  read_channel 1 resp

/-- Embeds the `temperature_setpoint` getter: `_read_channel(0)`. -/
def temperature_setpoint_get (resp : String) : String × Except PyError ℚ :=
  read_channel 0 resp

/-- Embeds the `heater_setpoint` getter, whose body is
`return self._read_channel(5)` (the live heater output percent, as the
source comment says: "return the actual heater percent, not the setpoint"). -/
def heater_setpoint_get (resp : String) : String × Except PyError ℚ :=
  read_channel 5 resp

/-- Embeds the `heater_volt` getter: `_read_channel(6)`. -/
def heater_volt_get (resp : String) : String × Except PyError ℚ :=
  read_channel 6 resp

/-- Embeds the `gasflow` getter: `_read_channel(7)`. -/
def gasflow_get (resp : String) : String × Except PyError ℚ :=
  read_channel 7 resp

/-- Embeds the `gasflow_setpoint` getter, whose body is
`return self.gasflow` (the source comment: "return the actual gasflow
instead"). -/
def gasflow_setpoint_get (resp : String) : String × Except PyError ℚ :=
  gasflow_get resp

/-- A `threading.Thread` object for the ramp: its `target` argument (the
setpoint to ramp to) and whether `.start()` has been called on it. The
source constructs the thread with `started := false`; no call to `.start()`
appears anywhere in the source. -/
structure RampThread where
  target : ℚ
  started : Bool
  deriving Repr, DecidableEq

/-- The driver's ramp bookkeeping: `_ramp_thread` (initially `None`) and the
`_cancel_ramp` event (initially clear). -/
structure RampState where
  ramp_thread : Option RampThread
  cancel_ramp : Bool
  deriving Repr, DecidableEq

/-- Embeds the `temperature_setpoint` setter. Returns the outcome, the list
of setpoint values written directly to the wire as `T` commands by the
setter itself, and the ramp state after the call.

Faithful to the source: values outside `[0, 300]` raise `ValueError` before
any wire traffic; in-range values are rounded to 2 decimals; with ramping
disabled a single `T` command is sent; with ramping enabled the setter sets
`_cancel_ramp`, joins `_ramp_thread` if one exists (Python's
`Thread.join()` raises `RuntimeError` when called on a thread that was
never started), then assigns a brand-new `Thread` object — on which
`.start()` is never invoked. -/
def temperature_setpoint_set (value : ℚ) (ramp_enabled : Bool)
    (rs : RampState) : Except PyError Unit × List ℚ × RampState :=
  if ¬(0 ≤ value ∧ value ≤ 300) then
    (Except.error PyError.valueError, [], rs)
  else
    let v := pyRound2 value
    if ¬ramp_enabled then (Except.ok (), [v], rs)
    else
      match rs.ramp_thread with
      | none => (Except.ok (), [], ⟨some ⟨v, false⟩, true⟩)
      | some t =>
          if t.started then (Except.ok (), [], ⟨some ⟨v, false⟩, true⟩)
          else (Except.error PyError.runtimeError, [], ⟨rs.ramp_thread, true⟩)

/-- Embeds the `temperature_ramp` setter. `ramp_speed` is the stored
`self._ramp_speed` at call time. Faithful to the source, the guard tests
`self._ramp_speed <= 0` — the previously stored rate — not the incoming
`value`; when the guard passes, `value` is stored unconditionally. Returns
the stored rate after the call (or the exception). -/
def temperature_ramp_set (value : ℚ) (ramp_speed : ℚ) : Except PyError ℚ :=
  if ramp_speed ≤ 0 then Except.error PyError.valueError
  else Except.ok value

/-- Embeds the `heater_setpoint` setter: values outside `[0, 99.9]` raise
`ValueError` with no wire traffic; otherwise the value is rounded to 1
decimal and written as an `O` command. Returns the outcome and the values
written. -/
def heater_setpoint_set (value : ℚ) : Except PyError Unit × List ℚ :=
  if ¬(0 ≤ value ∧ value ≤ 999 / 10) then (Except.error PyError.valueError, [])
  else (Except.ok (), [pyRound1 value])

/-- Embeds the `gasflow_setpoint` setter: values outside `[0, 99.9]` raise
`ValueError` with no wire traffic; otherwise the value is rounded to 1
decimal and written as a `G` command. -/
def gasflow_setpoint_set (value : ℚ) : Except PyError Unit × List ℚ :=
  if ¬(0 ≤ value ∧ value ≤ 999 / 10) then (Except.error PyError.valueError, [])
  else (Except.ok (), [pyRound1 value])

/-- The flag values one iteration of the ramp loop observes: `_ramp_enabled`
at the `while` condition, whether an external `_cancel_ramp.set()` request
is visible at the `is_set()` check, and `_ramp_enabled` again at the inner
`if`. Modelling them per iteration captures the concurrent toggles the loop
re-checks each second. -/
structure RampObs where
  enabled_at_loop : Bool
  cancel_req : Bool
  enabled_inner : Bool
  deriving Repr, DecidableEq

/-- Embeds the loop of `ITC503._ramp_to_temperature`. Arguments: the flag
values observed at each successive loop-head evaluation, the internal state
of the `_cancel_ramp` event as set by the task itself, the local `current`
setpoint, the `target`, and `self._ramp_speed`. Returns `some writes` (the
setpoint values written as `T` commands, in order) when the loop exits
within the supplied observations, `none` when they are exhausted first.

Each passing iteration with the inner `if` true advances `current` by
`sign(target - current) * rate / 60` (unrounded), writes
`round(current, 2)`, sleeps one second and re-checks; with the inner `if`
false it writes `round(current, 2)` without stepping and sets
`_cancel_ramp`, which forces the next `while` check to fail, so the loop
exits with that single further write. -/
def rampLoopAux : List RampObs → Bool → ℚ → ℚ → ℚ → Option (List ℚ)
  | [], _, _, _, _ => none
  | o :: rest, cancel, current, target, rate =>
      if o.enabled_at_loop = true ∧ (cancel = false ∧ o.cancel_req = false) ∧
          pyRound2 current ≠ target then
        if o.enabled_inner = true then
          let c := current + sign (target - current) * rate / 60
          match rampLoopAux rest cancel c target rate with
          | some ws => some (pyRound2 c :: ws)
          | none => none
        else some [pyRound2 current]
      else some []

/-- Embeds `ITC503._ramp_to_temperature(target)`: the task first clears
`_cancel_ramp`, reads the starting setpoint once (`start`, the response to
its initial `R0` query), then runs the loop. -/
def rampTask (obs : List RampObs) (start target rate : ℚ) :
    Option (List ℚ) :=
  rampLoopAux obs false start target rate

/-- The base-class connection state (`base.py`): whether `self.connection`
is a live resource object (`connected` tests `is not None`). -/
structure ConnState where
  connection : Bool
  deriving Repr, DecidableEq

/-- Embeds the `connected` property: `self.connection is not None`; a pure
state read. -/
def connected (s : ConnState) : Bool := s.connection

/-- Embeds `TempController.query`: the transport outcome is `some response`
on success and `none` on any lower-level failure, which the `except
Exception` handler converts to `ConnectionError`. The method body never
assigns `self.connection`, so the state is returned unchanged on both
paths. -/
def tc_query (transport : Option String) (s : ConnState) :
    Except PyError String × ConnState :=
  match transport with
  | some r => (Except.ok r, s)
  | none => (Except.error PyError.connectionError, s)

/-- Embeds `TempController.read`: same wrapping as `query`. -/
def tc_read (transport : Option String) (s : ConnState) :
    Except PyError String × ConnState :=
  match transport with
  | some r => (Except.ok r, s)
  | none => (Except.error PyError.connectionError, s)

/-- Embeds `TempController.write`: same wrapping; returns no value. -/
def tc_write (transport : Option Unit) (s : ConnState) :
    Except PyError Unit × ConnState :=
  match transport with
  | some _ => (Except.ok (), s)
  | none => (Except.error PyError.connectionError, s)

/-!
Theorems settling the specification claims.
-/

/-- C1: the claim "calling the heaterAuto setter with true and then the
gasflowAuto setter with false in immediate sequence leaves the combined
auto-mode code with heater=auto, gas=manual for every starting code" fails
on the code. Starting from auto code `A0` (heater manual, gas manual) with
an empty cache: the heater setter queries the device, caches the pre-write
status `A0`, and writes `A1`; the gasflow setter, called within the 1-second
cache window, re-derives the combined code from the stale cached `A0`
(heater manual) instead of the current `A1`, and writes `A0` — flipping the
heater back to manual. The final getter read confirms heater_auto is false.
The root cause is that the `A` write never invalidates or updates
`_cached_status`. -/
theorem heater_then_gas_drops_heater_auto :
    heater_then_gas 100 100 "X0A0C0S0H1L0" "" ⟨0, none⟩ =
      Except.ok ("A1", "A0",
        ⟨100, some ⟨"X0", "A0", "C0", "S0", "H1", "L0"⟩⟩) ∧
    (heater_auto_get 200 "X0A0C0S0H1L0"
        ⟨100, some ⟨"X0", "A0", "C0", "S0", "H1", "L0"⟩⟩).1 =
      Except.ok false := by
  have hp : parseStatus "X0A0C0S0H1L0" =
      some ⟨"X0", "A0", "C0", "S0", "H1", "L0"⟩ := by decide
  constructor
  · norm_num [heater_then_gas, heater_auto_set, gasflow_auto_set, get_status,
      hp, Option.some_ne_none]
  · norm_num [heater_auto_get, get_status, hp]
    exact ⟨by decide, by decide⟩

/-- C2: the claim "writing temperatureSetpoint with ramping enabled leaves
an active ramp task running for the new target" fails on the code. With
ramping enabled and no previous task, writing setpoint 50 performs the
cancel/join sequence (the cancel event is set), sends no direct `T` write,
and assigns a fresh `Thread` object for target 50 — but `.start()` is never
called on it, so the task is not running (`started = false`). -/
theorem ramp_thread_never_started :
    temperature_setpoint_set 50 true ⟨none, false⟩ =
      (Except.ok (), [], ⟨some ⟨50, false⟩, true⟩) ∧
    (⟨50, false⟩ : RampThread).started = false := by
  refine ⟨?_, rfl⟩
  norm_num [temperature_setpoint_set, pyRound2, pyRound]

/-- C3: the claim "setting temperatureRamp to any v ≤ 0 fails with
InvalidArgument and leaves the stored rate unchanged" fails on the code.
The setter's guard tests the previously stored `self._ramp_speed`, not the
incoming value: with the stored rate at its default 5 K/min, writing −1
raises nothing and stores −1. -/
theorem temperature_ramp_accepts_nonpositive :
    ((-1 : ℚ) ≤ 0) ∧ temperature_ramp_set (-1) 5 = Except.ok (-1) := by
  refine ⟨by norm_num, ?_⟩
  have h5 : ¬((5 : ℚ) ≤ 0) := by norm_num
  unfold temperature_ramp_set
  rw [if_neg h5]

/-- C4: the status cache issues exactly one wire query for a pair of reads
in quick succession, and a fresh query otherwise. First conjunct: a read at
`t0` with a stale-or-absent cache queries the wire (flag `true`) and
refreshes the cache to `⟨t0, some w⟩`. Second conjunct: a second read at
`t1` with `¬(t1 − t0 > 1)` (at most 1 second after the refresh) returns the
cached word with no wire query (flag `false`) and an untouched timestamp —
so exactly one query is issued across the pair, whatever response `resp1`
the device would have given. Third conjunct: any read more than 1 second
after the last refresh, or with an empty cache, issues a fresh query and
refreshes the timestamp to `now`. -/
theorem status_cache_single_query (t0 t1 now : ℚ) (resp resp1 resp2 : String)
    (w w2 : StatusWord) (s0 s : CacheState)
    (h0 : t0 - s0.last_status > 1 ∨ s0.cached_status = none)
    (hp : parseStatus resp = some w)
    (h1 : ¬ t1 - t0 > 1)
    (h2 : now - s.last_status > 1 ∨ s.cached_status = none)
    (hp2 : parseStatus resp2 = some w2) :
    get_status t0 resp s0 = (Except.ok w, ⟨t0, some w⟩, true) ∧
    get_status t1 resp1 ⟨t0, some w⟩ = (Except.ok w, ⟨t0, some w⟩, false) ∧
    get_status now resp2 s = (Except.ok w2, ⟨now, some w2⟩, true) := by
  refine ⟨?_, ?_, ?_⟩
  · unfold get_status
    rw [if_pos h0, hp]
  · have hcond : ¬((t1 - (⟨t0, some w⟩ : CacheState).last_status > 1) ∨
        (⟨t0, some w⟩ : CacheState).cached_status = none) := by
      simp only [not_or]
      exact ⟨h1, by simp⟩
    unfold get_status
    rw [if_neg hcond]
  · unfold get_status
    rw [if_pos h2, hp2]

/-- C4 witness: the pair (10 s, 11 s) starting from the initial empty cache
issues its single query on the first read; a later read at 20 s against a
cache refreshed at 18 s... the third conjunct is instantiated with a cache
last refreshed at 18 s read at 20 s, which is stale. -/
theorem status_cache_single_query_witness :
    get_status 10 "X0A0C0S0H1L0" ⟨0, none⟩ =
      (Except.ok ⟨"X0", "A0", "C0", "S0", "H1", "L0"⟩,
        ⟨10, some ⟨"X0", "A0", "C0", "S0", "H1", "L0"⟩⟩, true) ∧
    get_status 11 "garbage" ⟨10, some ⟨"X0", "A0", "C0", "S0", "H1", "L0"⟩⟩ =
      (Except.ok ⟨"X0", "A0", "C0", "S0", "H1", "L0"⟩,
        ⟨10, some ⟨"X0", "A0", "C0", "S0", "H1", "L0"⟩⟩, false) ∧
    get_status 20 "X1A3C0S12H2L1" ⟨18, some ⟨"X0", "A0", "C0", "S0", "H1", "L0"⟩⟩ =
      (Except.ok ⟨"X1", "A3", "C0", "S12", "H2", "L1"⟩,
        ⟨20, some ⟨"X1", "A3", "C0", "S12", "H2", "L1"⟩⟩, true) :=
  status_cache_single_query 10 11 20 "X0A0C0S0H1L0" "garbage" "X1A3C0S12H2L1"
    ⟨"X0", "A0", "C0", "S0", "H1", "L0"⟩ ⟨"X1", "A3", "C0", "S12", "H2", "L1"⟩
    ⟨0, none⟩ ⟨18, some ⟨"X0", "A0", "C0", "S0", "H1", "L0"⟩⟩
    (Or.inr rfl) (by decide) (by norm_num) (Or.inl (by norm_num)) (by decide)

/-- C5: the claim is right that a malformed status response leaves the
cached StatusWord and its timestamp exactly as they were, but the exception
escaping `_get_status` is `AttributeError` (from `None.groupdict()` after
`re.fullmatch` returns `None`), not a typed ProtocolError of the documented
taxonomy: the code has no handler for the failed match. Evaluated at a
stale cache holding a last-known-good word and the non-matching response
"garbage": the query is issued (flag `true`), `AttributeError` is raised,
and cache and timestamp are unchanged. -/
theorem get_status_parse_failure_attribute_error :
    get_status 10 "garbage" ⟨0, some ⟨"X0", "A0", "C0", "S0", "H1", "L0"⟩⟩ =
      (Except.error PyError.attributeError,
        ⟨0, some ⟨"X0", "A0", "C0", "S0", "H1", "L0"⟩⟩, true) := by
  have hp : parseStatus "garbage" = none := by decide
  norm_num [get_status, hp]

/-- C6: a ramp from setpoint 10.0 K to target 10.3 K at 6 K/min (step
6/60 = 0.1 K per one-second iteration) performs exactly 3 loop iterations,
writing 10.1, 10.2, 10.3 as successive `T` commands, and terminates with
the last written setpoint equal to 10.3 (the loop's fourth head check finds
`round(current, 2) = target` and exits). -/
theorem ramp_10_to_10_3_three_steps :
    rampTask (List.replicate 4 ⟨true, false, true⟩) 10 (103 / 10) 6 =
      some [101 / 10, 102 / 10, 103 / 10] := by
  norm_num [rampTask, rampLoopAux, sign, pyRound2, pyRound]

/-- C7: every out-of-range setpoint write raises `ValueError` (the spec's
InvalidArgument) before any wire traffic: the temperature setter for values
outside [0, 300], the heater and gasflow setters for values outside
[0, 99.9]; each returns an empty wire-write list and leaves the ramp state
untouched. -/
theorem setters_validate_before_wire (v1 v2 v3 : ℚ) (en : Bool)
    (rs : RampState)
    (hv1 : ¬(0 ≤ v1 ∧ v1 ≤ 300))
    (hv2 : ¬(0 ≤ v2 ∧ v2 ≤ 999 / 10))
    (hv3 : ¬(0 ≤ v3 ∧ v3 ≤ 999 / 10)) :
    temperature_setpoint_set v1 en rs = (Except.error PyError.valueError, [], rs) ∧
    heater_setpoint_set v2 = (Except.error PyError.valueError, []) ∧
    gasflow_setpoint_set v3 = (Except.error PyError.valueError, []) := by
  refine ⟨?_, ?_, ?_⟩
  · unfold temperature_setpoint_set
    rw [if_pos hv1]
  · unfold heater_setpoint_set
    rw [if_pos hv2]
  · unfold gasflow_setpoint_set
    rw [if_pos hv3]

/-- C7 witness: 301 K (above range), 100 % (above range) and −1 % (below
range) are all rejected with `ValueError` and zero wire writes. -/
theorem setters_validate_before_wire_witness :
    temperature_setpoint_set 301 false ⟨none, false⟩ =
      (Except.error PyError.valueError, [], ⟨none, false⟩) ∧
    heater_setpoint_set 100 = (Except.error PyError.valueError, []) ∧
    gasflow_setpoint_set (-1) = (Except.error PyError.valueError, []) :=
  setters_validate_before_wire 301 100 (-1) false ⟨none, false⟩
    (by norm_num) (by norm_num) (by norm_num)

/-- C8 counterexample: the claim "after a transport failure the driver's
connected property is false" is false on the code. With a live connection
object and a failing transport call, `query` raises `ConnectionError` but
never assigns `self.connection`, so `connected` still reads `true`, not
`false` as the claim requires. -/
theorem tc_query_failure_leaves_connected :
    (tc_query none ⟨true⟩).1 = Except.error PyError.connectionError ∧
    connected (tc_query none ⟨true⟩).2 = true ∧
    ¬ connected (tc_query none ⟨true⟩).2 = false := by
  refine ⟨rfl, rfl, ?_⟩
  intro h
  exact Bool.noConfusion h

/-- C8 amended: for every wire operation (query, read, write), a failing
transport call is normalized to `ConnectionError` (the spec's
ConnectionFailure) raised to the caller, and the driver's connection state
— hence the `connected` property — is left exactly as it was: the driver
does not mark itself disconnected. -/
theorem tc_ops_failure_connection_error_state_unchanged (s : ConnState) :
    tc_query none s = (Except.error PyError.connectionError, s) ∧
    tc_read none s = (Except.error PyError.connectionError, s) ∧
    tc_write none s = (Except.error PyError.connectionError, s) :=
  ⟨rfl, rfl, rfl⟩

/-- C8 amended witness: instantiated at a connected driver. -/
theorem tc_ops_failure_state_unchanged_witness :
    tc_query none ⟨false⟩ = (Except.error PyError.connectionError, ⟨false⟩) ∧
    tc_read none ⟨false⟩ = (Except.error PyError.connectionError, ⟨false⟩) ∧
    tc_write none ⟨false⟩ = (Except.error PyError.connectionError, ⟨false⟩) :=
  tc_ops_failure_connection_error_state_unchanged ⟨false⟩

/-- C9 counterexample: the claim "whenever the ramp task stops because
rampEnabled was toggled false or cancellation was requested before the
target is reached, it writes the current local setpoint as a final settle
command and then exits" is false on the code. With a cancellation request
pending at the loop-head check (current 10, target 20, not reached), the
`while` condition short-circuits and the task exits having written nothing
— not the settle write `round(10, 2)` the claim requires. -/
theorem ramp_cancel_exits_without_settle_write :
    rampTask [⟨true, true, true⟩] 10 20 5 = some [] ∧
    rampTask [⟨true, true, true⟩] 10 20 5 ≠ some [pyRound2 10] := by
  have h : rampTask [⟨true, true, true⟩] 10 20 5 = some [] := by decide
  refine ⟨h, ?_⟩
  rw [h]
  simp

/-- C9 amended: when the ramp loop observes `rampEnabled = false` or a
cancellation request at its loop-head check, it exits immediately without
writing any settle command; the final settle write of `round(current, 2)`
happens only in the narrow race where `rampEnabled` is true at the loop
head but observed false at the inner `if` within the same iteration, in
which case the task writes exactly that one value, sets the cancel event
and exits. -/
theorem ramp_loop_head_exit_no_write (o : RampObs) (rest : List RampObs)
    (cancel : Bool) (current target rate : ℚ)
    (hstop : o.enabled_at_loop = false ∨ cancel = true ∨ o.cancel_req = true) :
    rampLoopAux (o :: rest) cancel current target rate = some [] ∧
    (∀ (o2 : RampObs) (rest2 : List RampObs) (c2 : ℚ),
      o2.enabled_at_loop = true → o2.cancel_req = false →
      o2.enabled_inner = false → pyRound2 c2 ≠ target →
      rampLoopAux (o2 :: rest2) false c2 target rate = some [pyRound2 c2]) := by
  constructor
  · have hcond : ¬(o.enabled_at_loop = true ∧ (cancel = false ∧ o.cancel_req = false) ∧
        pyRound2 current ≠ target) := by
      rcases hstop with h | h | h <;> simp [h]
    unfold rampLoopAux
    rw [if_neg hcond]
  · intro o2 rest2 c2 h1 h2 h3 h4
    have hcond : o2.enabled_at_loop = true ∧ (false = false ∧ o2.cancel_req = false) ∧
        pyRound2 c2 ≠ target := ⟨h1, ⟨rfl, h2⟩, h4⟩
    have hinner : ¬ o2.enabled_inner = true := by simp [h3]
    unfold rampLoopAux
    rw [if_pos hcond, if_neg hinner]

/-- C9 amended witness: a loop head seeing `rampEnabled = false` exits with
no write; a mid-iteration toggle (enabled at the head, disabled at the
inner check) writes the single settle value `round(10, 2)`. -/
theorem ramp_loop_head_exit_no_write_witness :
    rampLoopAux [⟨false, false, true⟩] false 10 20 5 = some [] ∧
    rampLoopAux [⟨true, false, false⟩] false 10 20 5 = some [pyRound2 10] := by
  have h := ramp_loop_head_exit_no_write ⟨false, false, true⟩ [] false 10 20 5
    (Or.inl rfl)
  exact ⟨h.1, h.2 ⟨true, false, false⟩ [] 10 rfl rfl rfl (by norm_num [pyRound2, pyRound])⟩

/-- C10: the `heater_setpoint` getter performs the live read-channel query
`R5` (actual heater output percent) and the `gasflow_setpoint` getter is
literally the `gasflow` getter, performing the live read-channel query
`R7`; neither consults any stored setpoint value, and the two gasflow
getters agree on every response. -/
theorem setpoint_getters_return_live_readings (resp : String) :
    heater_setpoint_get resp = read_channel 5 resp ∧
    (heater_setpoint_get resp).1 = "R5" ∧
    gasflow_setpoint_get resp = gasflow_get resp ∧
    gasflow_get resp = read_channel 7 resp ∧
    (gasflow_setpoint_get resp).1 = "R7" :=
  ⟨rfl, rfl, rfl, rfl, rfl⟩

/-- C10 witness: the getters instantiated at a concrete device response. -/
theorem setpoint_getters_return_live_readings_witness :
    heater_setpoint_get "R25.4" = read_channel 5 "R25.4" ∧
    (heater_setpoint_get "R25.4").1 = "R5" ∧
    gasflow_setpoint_get "R25.4" = gasflow_get "R25.4" ∧
    gasflow_get "R25.4" = read_channel 7 "R25.4" ∧
    (gasflow_setpoint_get "R25.4").1 = "R7" :=
  setpoint_getters_return_live_readings "R25.4"

end Cryocontrol
